import Mathlib

/-!
# Sea-drone simulation: verification of the control/telemetry layer

Shallow embedding of the `sea-drone-simulation` package, which wires a
2-D physics world (matter-js) to a per-tick control loop.  The repository
ships three variants of the same file:

* `src/index.js` — single thruster with a rudder (`Solo` below);
* `src/unnamed/part_000` — two thrusters, left/right (`Twin` below);
* `src/unnamed/part_001` — two thrusters with geo-coordinate mapping
  (`Geo` below).

JavaScript numbers are modelled as real numbers; the JS `%` operator
(sign-preserving remainder, truncated division) is `jsMod`.  External
matter-js primitives used by the code are embedded from their matter-js
sources: `Vector.sub`, `Vector.magnitude`, `Vector.angle` (= `Math.atan2`,
embedded as the complex argument) and `Body.applyForce`.  Collision
detection (`Matter.SAT.collides`) stays an abstract boolean predicate,
as the spec delegates it to the external engine.
-/

namespace SeaDrone

/-- JavaScript truncation toward zero (the integer quotient used by `%`). -/
noncomputable def jsTrunc (x : ℝ) : ℤ := if 0 ≤ x then ⌊x⌋ else ⌈x⌉

/-- The JavaScript remainder `a % n`: `a - n * trunc (a / n)`, which keeps
the sign of the dividend `a`. -/
noncomputable def jsMod (a n : ℝ) : ℝ := a - n * jsTrunc (a / n)

/-- The mathematical modulus taking values in `[0, n)` for `n > 0`. -/
noncomputable def realMod (a n : ℝ) : ℝ := a - n * ⌊a / n⌋

lemma jsMod_mem (a : ℝ) {n : ℝ} (hn : 0 < n) : -n < jsMod a n ∧ jsMod a n < n := by
  unfold jsMod jsTrunc
  have hxa : a / n * n = a := div_mul_cancel₀ a (ne_of_gt hn)
  split
  · have h1 : (⌊a / n⌋ : ℝ) ≤ a / n := Int.floor_le _
    have h2 : a / n < ⌊a / n⌋ + 1 := Int.lt_floor_add_one _
    constructor <;> nlinarith
  · have h1 : a / n ≤ ⌈a / n⌉ := Int.le_ceil _
    have h2 : (⌈a / n⌉ : ℝ) < a / n + 1 := Int.ceil_lt_add_one _
    constructor <;> nlinarith

lemma jsMod_of_nonneg {a n : ℝ} (ha : 0 ≤ a) (hn : 0 < n) : jsMod a n = realMod a n := by
  unfold jsMod realMod jsTrunc
  rw [if_pos (div_nonneg ha (le_of_lt hn))]

lemma realMod_add_int_mul (a : ℝ) {n : ℝ} (hn : n ≠ 0) (k : ℤ) :
    realMod (a + n * k) n = realMod a n := by
  unfold realMod
  have h : (a + n * k) / n = a / n + k := by field_simp; ring
  rw [h, Int.floor_add_int]
  push_cast
  ring

lemma realMod_nonneg (a : ℝ) {n : ℝ} (hn : 0 < n) : 0 ≤ realMod a n := by
  unfold realMod
  have h1 : (⌊a / n⌋ : ℝ) ≤ a / n := Int.floor_le _
  have hxa : a / n * n = a := div_mul_cancel₀ a (ne_of_gt hn)
  nlinarith

lemma realMod_lt (a : ℝ) {n : ℝ} (hn : 0 < n) : realMod a n < n := by
  unfold realMod
  have h2 : a / n < ⌊a / n⌋ + 1 := Int.lt_floor_add_one _
  have hxa : a / n * n = a := div_mul_cancel₀ a (ne_of_gt hn)
  nlinarith

lemma realMod_eq_self {a n : ℝ} (hn : 0 < n) (h0 : 0 ≤ a) (h1 : a < n) :
    realMod a n = a := by
  unfold realMod
  have hz : ⌊a / n⌋ = 0 := by
    rw [Int.floor_eq_zero_iff, Set.mem_Ico]
    exact ⟨div_nonneg h0 (le_of_lt hn), by rw [div_lt_one hn]; exact h1⟩
  rw [hz]
  simp

/-- `normalizeAngle` from the source (identical in all three variants):
```js
const normalizeAngle = angle => {
  const degrees = ((angle * 180) / Math.PI) % 360;
  const normalized = degrees < 0 ? Math.abs(degrees) : 360 - degrees;
  return (450 - normalized) % 360;
};
``` -/
noncomputable def normalizeAngle (angle : ℝ) : ℝ :=
  let degrees := jsMod (angle * 180 / Real.pi) 360
  let normalized := if degrees < 0 then |degrees| else 360 - degrees
  jsMod (450 - normalized) 360

lemma normalizeAngle_eq_realMod (θ : ℝ) :
    normalizeAngle θ = realMod (90 + θ * 180 / Real.pi) 360 := by
  have h360 : (0 : ℝ) < 360 := by norm_num
  have hne : (360 : ℝ) ≠ 0 := by norm_num
  obtain ⟨hlo, hhi⟩ := jsMod_mem (θ * 180 / Real.pi) h360
  have hrep : jsMod (θ * 180 / Real.pi) 360 =
      θ * 180 / Real.pi - 360 * jsTrunc (θ * 180 / Real.pi / 360) := rfl
  simp only [normalizeAngle]
  by_cases hneg : jsMod (θ * 180 / Real.pi) 360 < 0
  · rw [if_pos hneg, abs_of_neg hneg]
    have h0 : (0 : ℝ) ≤ 450 - -jsMod (θ * 180 / Real.pi) 360 := by linarith
    rw [jsMod_of_nonneg h0 h360, hrep]
    have hc : 450 - -(θ * 180 / Real.pi - 360 * jsTrunc (θ * 180 / Real.pi / 360)) =
        90 + θ * 180 / Real.pi +
          360 * ((1 - jsTrunc (θ * 180 / Real.pi / 360) : ℤ) : ℝ) := by
      push_cast
      ring
    rw [hc, realMod_add_int_mul _ hne]
  · rw [if_neg hneg]
    push_neg at hneg
    have h0 : (0 : ℝ) ≤ 450 - (360 - jsMod (θ * 180 / Real.pi) 360) := by linarith
    rw [jsMod_of_nonneg h0 h360, hrep]
    have hc : 450 - (360 - (θ * 180 / Real.pi - 360 * jsTrunc (θ * 180 / Real.pi / 360))) =
        90 + θ * 180 / Real.pi +
          360 * ((-jsTrunc (θ * 180 / Real.pi / 360) : ℤ) : ℝ) := by
      push_cast
      ring
    rw [hc, realMod_add_int_mul _ hne]

lemma normalizeAngle_nonneg (θ : ℝ) : 0 ≤ normalizeAngle θ := by
  rw [normalizeAngle_eq_realMod]
  exact realMod_nonneg _ (by norm_num)

lemma normalizeAngle_lt (θ : ℝ) : normalizeAngle θ < 360 := by
  rw [normalizeAngle_eq_realMod]
  exact realMod_lt _ (by norm_num)

/-- Evaluation: when the degree value `d` of `θ` satisfies `-90 ≤ d < 270`,
the normalized heading is `90 + d`. -/
lemma normalizeAngle_eval {θ d : ℝ} (h : θ * 180 / Real.pi = d)
    (h0 : 0 ≤ 90 + d) (h1 : 90 + d < 360) : normalizeAngle θ = 90 + d := by
  rw [normalizeAngle_eq_realMod, h]
  exact realMod_eq_self (by norm_num) h0 h1

/-! ## matter-js vector primitives used by the detector -/

/-- A matter-js 2-D vector `{x, y}`. -/
structure Vec where
  x : ℝ
  y : ℝ

/-- `Math.atan2(y, x)`, embedded as the argument of the complex number
`x + y i` (both take values in `(-π, π]` with the same conventions). -/
noncomputable def atan2 (y x : ℝ) : ℝ := Complex.arg ⟨x, y⟩

/-- matter-js `Vector.sub`. -/
noncomputable def Vector.sub (a b : Vec) : Vec := ⟨a.x - b.x, a.y - b.y⟩

/-- matter-js `Vector.magnitude`: `Math.sqrt(x*x + y*y)`. -/
noncomputable def Vector.magnitude (v : Vec) : ℝ := Real.sqrt (v.x ^ 2 + v.y ^ 2)

/-- matter-js `Vector.angle(a, b) = Math.atan2(b.y - a.y, b.x - a.x)`. -/
noncomputable def Vector.angle (a b : Vec) : ℝ := atan2 (b.y - a.y) (b.x - a.x)

/-! ## The waste detector (identical in all three variants) -/

/-- One entry of `detector.getDetectedWaste()`'s result. -/
structure WasteReading where
  direction : ℝ
  proximity : ℝ

/-- `detector.getDetectedWaste` from the source: map each remaining bottle to
its `(angle, distance)` pair, keep the pairs with
`distance < detectorRange && Math.abs(angle) < detectorAngle`, and return
`{direction, proximity}` readings. -/
noncomputable def getDetectedWaste (boatPosition : Vec) (boatBodyAngle : ℝ)
    (detectorAngle detectorRange : ℝ) (bottles : List Vec) : List WasteReading :=
  ((bottles.map fun bottlePosition =>
      let distance := Vector.magnitude (Vector.sub boatPosition bottlePosition)
      let wasteAngle := normalizeAngle (Vector.angle boatPosition bottlePosition)
      let boatAngle := normalizeAngle boatBodyAngle
      (wasteAngle - boatAngle, distance)).filter fun p =>
        decide (p.2 < detectorRange) && decide (|p.1| < detectorAngle)).map fun p =>
    ⟨p.1, if p.2 < detectorRange / 2 then 0 else 1⟩

/-- The claim's detection condition: Euclidean distance of the bottle from the
boat strictly below `detectorRange`, and the bearing — `normalizeAngle` of the
boat-to-bottle direction minus `normalizeAngle` of the boat's angle — strictly
below `detectorAngle` in absolute value. -/
noncomputable def detects (boatPosition : Vec) (boatBodyAngle : ℝ)
    (detectorAngle detectorRange : ℝ) (b : Vec) : Prop :=
  Real.sqrt ((boatPosition.x - b.x) ^ 2 + (boatPosition.y - b.y) ^ 2) < detectorRange ∧
    |normalizeAngle (Vector.angle boatPosition b) - normalizeAngle boatBodyAngle| <
      detectorAngle

noncomputable instance (boatPosition : Vec) (boatBodyAngle : ℝ)
    (detectorAngle detectorRange : ℝ) :
    DecidablePred (detects boatPosition boatBodyAngle detectorAngle detectorRange) :=
  fun b => by unfold detects; infer_instance

lemma filter_map_map {α β γ : Type} (f : α → β) (q : β → Bool) (g : β → γ)
    (l : List α) :
    ((l.map f).filter q).map g =
      (l.filter fun a => q (f a)).map fun a => g (f a) := by
  induction l with
  | nil => rfl
  | cons a t ih =>
    simp only [List.map_cons, List.filter_cons]
    by_cases h : q (f a) = true
    · rw [if_pos h, if_pos h, List.map_cons, ih, List.map_cons]
    · rw [if_neg h, if_neg h, ih]

/-- C1: `detector.getDetectedWaste()` returns exactly the readings of those
bottles whose Euclidean distance from the boat is strictly below
`detectorRange` and whose bearing — `normalizeAngle` of the boat-to-bottle
direction minus `normalizeAngle` of the boat's angle — is strictly below
`detectorAngle` in absolute value; every bottle failing either strict
inequality is excluded. -/
theorem getDetectedWaste_exactly_detects (boatPosition : Vec) (boatBodyAngle : ℝ)
    (detectorAngle detectorRange : ℝ) (bottles : List Vec) :
    getDetectedWaste boatPosition boatBodyAngle detectorAngle detectorRange bottles =
      (bottles.filter fun b =>
          decide (detects boatPosition boatBodyAngle detectorAngle detectorRange b)).map
        fun b =>
          ⟨normalizeAngle (Vector.angle boatPosition b) - normalizeAngle boatBodyAngle,
            if Real.sqrt ((boatPosition.x - b.x) ^ 2 + (boatPosition.y - b.y) ^ 2) <
                detectorRange / 2 then 0 else 1⟩ := by
  unfold getDetectedWaste
  rw [filter_map_map]
  congr 1
  apply List.filter_congr
  intro b _
  simp only [detects, Bool.decide_and]
  rfl

/-! ## Heading -/

/-- `position.getHeading()` from the source: `normalizeAngle(boat.angle)`. -/
noncomputable def getHeading (boatBodyAngle : ℝ) : ℝ := normalizeAngle boatBodyAngle

/-- The spec sentence's `normalize`: first reduce `d = θ·180/π` modulo 360
with a sign-preserving remainder, then map it to `|d|` when `d < 0` and to
`360 − d` otherwise. -/
noncomputable def specNormalize (x : ℝ) : ℝ :=
  let d := jsMod x 360
  if d < 0 then |d| else 360 - d

/-- The spec formula `heading = (450 − normalize(angle·180/π)) mod 360`,
the outer `mod 360` taken into `[0, 360)`. -/
noncomputable def specHeading (θ : ℝ) : ℝ :=
  realMod (450 - specNormalize (θ * 180 / Real.pi)) 360

/-- C2: for every boat body angle `θ` in radians, `position.getHeading()`
returns the spec formula `(450 − normalize(θ·180/π)) mod 360` with
`normalize` as the spec describes it. -/
theorem getHeading_spec_formula (θ : ℝ) : getHeading θ = specHeading θ := by
  have h360 : (0 : ℝ) < 360 := by norm_num
  obtain ⟨hlo, hhi⟩ := jsMod_mem (θ * 180 / Real.pi) h360
  show normalizeAngle θ = specHeading θ
  simp only [normalizeAngle, specHeading, specNormalize]
  apply jsMod_of_nonneg _ h360
  by_cases h : jsMod (θ * 180 / Real.pi) 360 < 0
  · rw [if_pos h, abs_of_neg h]
    linarith
  · rw [if_neg h]
    push_neg at h
    linarith

/-- The single-formula reference definition of the heading normalization:
`θ ↦ (90 + θ·180/π) mod 360`, the result taken in `[0, 360)`. -/
noncomputable def referenceNormalize (θ : ℝ) : ℝ :=
  realMod (90 + θ * 180 / Real.pi) 360

/-- C6: `normalizeAngle` agrees with the reference `(90 + θ·180/π) mod 360`
on every input (both its `d < 0` and its `d ≥ 0` branch), and consequently
the returned heading always lies in `[0, 360)`. -/
theorem normalizeAngle_refines_reference (θ : ℝ) :
    normalizeAngle θ = referenceNormalize θ ∧
      0 ≤ normalizeAngle θ ∧ normalizeAngle θ < 360 :=
  ⟨normalizeAngle_eq_realMod θ, normalizeAngle_nonneg θ, normalizeAngle_lt θ⟩

/-! ## The detector's 0°/360° seam -/

/-- The true angular separation of two headings given in `[0, 360)`: the
smaller of the two arcs between them on the circle. -/
noncomputable def angularSep (a b : ℝ) : ℝ :=
  min (realMod (a - b) 360) (360 - realMod (a - b) 360)

lemma normalizeAngle_neg_pi_div_two :
    normalizeAngle (-(Real.pi / 2)) = 0 := by
  have hd : -(Real.pi / 2) * 180 / Real.pi = -90 := by
    field_simp [Real.pi_ne_zero]
    ring
  rw [normalizeAngle_eval hd (by norm_num) (by norm_num)]
  norm_num

lemma normalizeAngle_13_pi_div_9 :
    normalizeAngle (13 * Real.pi / 9) = 350 := by
  have hd : 13 * Real.pi / 9 * 180 / Real.pi = 260 := by
    field_simp [Real.pi_ne_zero]
    ring
  rw [normalizeAngle_eval hd (by norm_num) (by norm_num)]
  norm_num

lemma angle_origin_below : Vector.angle ⟨0, 0⟩ ⟨0, -50⟩ = -(Real.pi / 2) := by
  unfold Vector.angle atan2
  have h : (⟨(0 : ℝ) - 0, (-50 : ℝ) - 0⟩ : ℂ) = ((50 : ℝ) : ℂ) * -Complex.I := by
    apply Complex.ext <;> simp
  rw [h, Complex.arg_real_mul _ (by norm_num : (0 : ℝ) < 50), Complex.arg_neg_I]

lemma magnitude_origin_below : Vector.magnitude (Vector.sub ⟨0, 0⟩ ⟨0, -50⟩) = 50 := by
  unfold Vector.magnitude Vector.sub
  have h : ((0 : ℝ) - 0) ^ 2 + ((0 : ℝ) - -50) ^ 2 = 50 ^ 2 := by norm_num
  rw [h, Real.sqrt_sq (by norm_num : (0 : ℝ) ≤ 50)]

lemma realMod_neg_350 : realMod (-350) 360 = 10 := by
  have h : (-350 : ℝ) = 10 + 360 * ((-1 : ℤ) : ℝ) := by norm_num
  rw [h, realMod_add_int_mul _ (by norm_num)]
  exact realMod_eq_self (by norm_num) (by norm_num) (by norm_num)

/-- C9: the reported direction is the unwrapped difference of two headings in
`[0, 360)`, so it ranges over `(−360, 360)`; detection is therefore not
invariant across the 0°/360° seam: a boat with heading 350° and a bottle
50 units away at bearing 0° (true separation 10° < 45°) yields an unwrapped
difference of −350 and the bottle is omitted from the result. -/
theorem getDetectedWaste_seam_blind :
    (∀ (boatPosition : Vec) (boatBodyAngle detectorAngle detectorRange : ℝ)
        (bottles : List Vec) (r : WasteReading),
        r ∈ getDetectedWaste boatPosition boatBodyAngle detectorAngle detectorRange
            bottles →
          -360 < r.direction ∧ r.direction < 360) ∧
      ∃ (boatBodyAngle : ℝ) (bottle : Vec),
        Vector.magnitude (Vector.sub ⟨0, 0⟩ bottle) < 80 ∧
          angularSep (normalizeAngle (Vector.angle ⟨0, 0⟩ bottle))
              (normalizeAngle boatBodyAngle) < 45 ∧
          45 ≤ |normalizeAngle (Vector.angle ⟨0, 0⟩ bottle) -
                normalizeAngle boatBodyAngle| ∧
          getDetectedWaste ⟨0, 0⟩ boatBodyAngle 45 80 [bottle] = [] := by
  constructor
  · intro boatPosition boatBodyAngle detectorAngle detectorRange bottles r hr
    unfold getDetectedWaste at hr
    obtain ⟨q, hq, rfl⟩ := List.mem_map.mp hr
    obtain ⟨b, _, rfl⟩ := List.mem_map.mp (List.mem_of_mem_filter hq)
    have h1 := normalizeAngle_nonneg (Vector.angle boatPosition b)
    have h2 := normalizeAngle_lt (Vector.angle boatPosition b)
    have h3 := normalizeAngle_nonneg boatBodyAngle
    have h4 := normalizeAngle_lt boatBodyAngle
    constructor <;> simp only [WasteReading.mk.injEq] <;> linarith
  · refine ⟨13 * Real.pi / 9, ⟨0, -50⟩, ?_, ?_, ?_, ?_⟩
    · rw [magnitude_origin_below]
      norm_num
    · rw [angle_origin_below, normalizeAngle_neg_pi_div_two, normalizeAngle_13_pi_div_9]
      unfold angularSep
      rw [show (0 : ℝ) - 350 = -350 by norm_num, realMod_neg_350]
      norm_num
    · rw [angle_origin_below, normalizeAngle_neg_pi_div_two, normalizeAngle_13_pi_div_9]
      norm_num
    · unfold getDetectedWaste
      simp only [List.map_cons, List.map_nil, List.filter_cons, List.filter_nil]
      rw [magnitude_origin_below, angle_origin_below, normalizeAngle_neg_pi_div_two,
        normalizeAngle_13_pi_div_9]
      norm_num

/-! ## Bottle consumption (the tick handler's filter, identical in all
variants).  `Matter.SAT.collides(bottle, boat).collided` is delegated to the
external engine, so a tick's collision outcome is an abstract boolean
predicate on the bottles. -/

/-- The bottle list and collected weight the tick handler mutates. -/
structure SimState (α : Type) where
  bottles : List α
  weight : ℕ

/-- One tick's consumption pass:
```js
bottles = bottles.filter(bottle => {
  const { collided } = Matter.SAT.collides(bottle, boat);
  if (collided) { weight++; World.remove(world, bottle); return false; }
  return true;
});
``` -/
def consumeStep {α : Type} (collided : α → Bool) (s : SimState α) : SimState α :=
  { bottles := s.bottles.filter fun b => !collided b
    weight := s.weight + s.bottles.countP collided }

/-- A run of the tick loop: the consumption pass folded over the per-tick
collision outcomes. -/
def runTicks {α : Type} (steps : List (α → Bool)) (s : SimState α) : SimState α :=
  steps.foldl (fun s c => consumeStep c s) s

lemma runTicks_nil {α : Type} (s : SimState α) : runTicks [] s = s := rfl

lemma runTicks_cons {α : Type} (c : α → Bool) (t : List (α → Bool)) (s : SimState α) :
    runTicks (c :: t) s = runTicks t (consumeStep c s) := rfl

lemma runTicks_append {α : Type} (a b : List (α → Bool)) (s : SimState α) :
    runTicks (a ++ b) s = runTicks b (runTicks a s) := by
  unfold runTicks
  exact List.foldl_append _ _ _ _

lemma countP_add_length_filter_not {α : Type} (p : α → Bool) (l : List α) :
    l.countP p + (l.filter fun b => !p b).length = l.length := by
  induction l with
  | nil => rfl
  | cons a t ih =>
    simp only [List.countP_cons, List.filter_cons, List.length_cons]
    cases hpa : p a with
    | true =>
      simp only [hpa, Bool.not_true, Bool.false_eq_true, if_false, if_true]
      omega
    | false =>
      simp only [hpa, Bool.not_false, Bool.false_eq_true, if_false, if_true,
        List.length_cons]
      omega

lemma consumeStep_weight_length {α : Type} (c : α → Bool) (s : SimState α) :
    (consumeStep c s).weight + (consumeStep c s).bottles.length =
      s.weight + s.bottles.length := by
  unfold consumeStep
  have h := countP_add_length_filter_not c s.bottles
  simp only
  omega

lemma runTicks_weight_length {α : Type} (steps : List (α → Bool)) (s : SimState α) :
    (runTicks steps s).weight + (runTicks steps s).bottles.length =
      s.weight + s.bottles.length := by
  induction steps generalizing s with
  | nil => rfl
  | cons c t ih =>
    rw [runTicks_cons, ih (consumeStep c s), consumeStep_weight_length]

lemma runTicks_weight_mono {α : Type} (steps : List (α → Bool)) (s : SimState α) :
    s.weight ≤ (runTicks steps s).weight := by
  induction steps generalizing s with
  | nil => exact le_refl _
  | cons c t ih =>
    rw [runTicks_cons]
    exact le_trans (Nat.le_add_right _ _) (ih (consumeStep c s))

lemma runTicks_bottles_sublist {α : Type} (steps : List (α → Bool)) (s : SimState α) :
    (runTicks steps s).bottles.Sublist s.bottles := by
  induction steps generalizing s with
  | nil => exact List.Sublist.refl _
  | cons c t ih =>
    rw [runTicks_cons]
    exact (ih (consumeStep c s)).trans (List.filter_sublist _)

/-- C3: in every state reachable by the tick loop from an initial state with
`numberOfBottles` bottles and weight 0, `container.getWeight()` plus the
number of tracked bottles equals `numberOfBottles`; each tick removes exactly
the collided bottles and increments the weight by one per removed bottle;
the weight is non-decreasing along the run and removed bottles are never
re-added. -/
theorem tick_weight_invariant {α : Type} (numberOfBottles : ℕ) (init : SimState α)
    (steps more : List (α → Bool)) (collided : α → Bool)
    (hw : init.weight = 0) (hb : init.bottles.length = numberOfBottles) :
    (runTicks steps init).weight + (runTicks steps init).bottles.length =
        numberOfBottles ∧
      (runTicks steps init).weight ≤ (runTicks (steps ++ more) init).weight ∧
      (runTicks (steps ++ more) init).bottles.Sublist (runTicks steps init).bottles ∧
      (runTicks steps init).bottles.Sublist init.bottles ∧
      (consumeStep collided (runTicks steps init)).weight =
        (runTicks steps init).weight +
          ((runTicks steps init).bottles.filter collided).length ∧
      (consumeStep collided (runTicks steps init)).bottles =
        (runTicks steps init).bottles.filter fun b => !collided b := by
  refine ⟨?_, ?_, ?_, runTicks_bottles_sublist steps init, ?_, rfl⟩
  · have h := runTicks_weight_length steps init
    omega
  · rw [runTicks_append]
    exact runTicks_weight_mono more (runTicks steps init)
  · rw [runTicks_append]
    exact runTicks_bottles_sublist more (runTicks steps init)
  · unfold consumeStep
    simp only [List.countP_eq_length_filter]

/-- Witness for C3 at a concrete run: three bottles, one tick consuming the
second, one further tick consuming the first, a final pass colliding the
third. -/
theorem tick_weight_invariant_witness :
    (runTicks [fun b => b == 20] (⟨[10, 20, 30], 0⟩ : SimState ℕ)).weight +
          (runTicks [fun b => b == 20]
              (⟨[10, 20, 30], 0⟩ : SimState ℕ)).bottles.length = 3 ∧
      (runTicks [fun b => b == 20] (⟨[10, 20, 30], 0⟩ : SimState ℕ)).weight ≤
        (runTicks ([fun b => b == 20] ++ [fun b => b == 10])
            (⟨[10, 20, 30], 0⟩ : SimState ℕ)).weight ∧
      (runTicks ([fun b => b == 20] ++ [fun b => b == 10])
          (⟨[10, 20, 30], 0⟩ : SimState ℕ)).bottles.Sublist
        (runTicks [fun b => b == 20] (⟨[10, 20, 30], 0⟩ : SimState ℕ)).bottles ∧
      (runTicks [fun b => b == 20] (⟨[10, 20, 30], 0⟩ : SimState ℕ)).bottles.Sublist
        (⟨[10, 20, 30], 0⟩ : SimState ℕ).bottles ∧
      (consumeStep (fun b => b == 30)
            (runTicks [fun b => b == 20] (⟨[10, 20, 30], 0⟩ : SimState ℕ))).weight =
        (runTicks [fun b => b == 20] (⟨[10, 20, 30], 0⟩ : SimState ℕ)).weight +
          ((runTicks [fun b => b == 20]
              (⟨[10, 20, 30], 0⟩ : SimState ℕ)).bottles.filter fun b => b == 30).length ∧
      (consumeStep (fun b => b == 30)
            (runTicks [fun b => b == 20] (⟨[10, 20, 30], 0⟩ : SimState ℕ))).bottles =
        (runTicks [fun b => b == 20]
            (⟨[10, 20, 30], 0⟩ : SimState ℕ)).bottles.filter fun b => !(b == 30) :=
  tick_weight_invariant 3 ⟨[10, 20, 30], 0⟩ [fun b => b == 20] [fun b => b == 10]
    (fun b => b == 30) rfl rfl

/-! ## Bodies and force application -/

/-- The parts of a matter-js body the tick handler reads or writes. -/
structure Boat where
  position : Vec
  angle : ℝ
  vertices : List Vec
  force : Vec
  torque : ℝ

/-- matter-js `Body.applyForce(body, position, force)`: accumulate the force
and add the moment of the force about the body's position to the torque. -/
noncomputable def Body.applyForce (body : Boat) (position force : Vec) : Boat :=
  { body with
    force := ⟨body.force.x + force.x, body.force.y + force.y⟩
    torque := body.torque +
      ((position.x - body.position.x) * force.y -
        (position.y - body.position.y) * force.x) }

/-- `const MAX_FORCE = 0.025` (identical in all three variants). -/
noncomputable def MAX_FORCE : ℝ := 0.025

/-! ## Single-thruster variant (`src/index.js`) -/

namespace Solo

/-- The stored control commands: `let rudder = 0, velocity = 0`. -/
structure Ctrl where
  rudder : ℝ
  velocity : ℝ

/-- `control.setVelocity(value)`: rejects values outside `[-1, 1]` (second
component `true` means the call threw), otherwise stores the value. -/
noncomputable def setVelocity (s : Ctrl) (value : ℝ) : Ctrl × Bool :=
  if value < -1 ∨ value > 1 then (s, true)
  else ({ s with velocity := value }, false)

/-- `control.setRudder(value)`. -/
noncomputable def setRudder (s : Ctrl) (value : ℝ) : Ctrl × Bool :=
  if value < -1 ∨ value > 1 then (s, true)
  else ({ s with rudder := value }, false)

/-- `propellerPosition` from the tick handler:
`x: x1 > x2 ? x2 + (x1 - x2) / 2 : x1 + (x2 - x1) / 2` (same for `y`),
with `(x1, y1) = boat.vertices[0]` and `(x2, y2)` the last vertex. -/
noncomputable def propellerPosition (boat : Boat) : Vec :=
  let p1 := boat.vertices.getD 0 ⟨0, 0⟩
  let p2 := boat.vertices.getD (boat.vertices.length - 1) ⟨0, 0⟩
  ⟨if p1.x > p2.x then p2.x + (p1.x - p2.x) / 2 else p1.x + (p2.x - p1.x) / 2,
    if p1.y > p2.y then p2.y + (p1.y - p2.y) / 2 else p1.y + (p2.y - p1.y) / 2⟩

/-- The main propeller force: magnitude `MAX_FORCE * velocity` at angle
`boat.angle + (Math.PI / 2) * rudder`. -/
noncomputable def mainForce (boat : Boat) (c : Ctrl) : Vec :=
  let angle := boat.angle + Real.pi / 2 * c.rudder
  let force := MAX_FORCE * c.velocity
  ⟨Real.cos angle * force, Real.sin angle * force⟩

/-- The second, rudder-proportional force of the tick handler. -/
noncomputable def correctiveForce (boat : Boat) (c : Ctrl) : Vec :=
  let force := MAX_FORCE * c.velocity
  let a := boat.angle + (if c.rudder < 0 then (1 : ℝ) else -1) * Real.pi / 2
  ⟨Real.cos a * force * 0.8 * |c.rudder|, Real.sin a * force * 0.8 * |c.rudder|⟩

/-- The force-application tail of the tick handler: both `Body.applyForce`
calls, at `propellerPosition`. -/
noncomputable def applyTickForces (boat : Boat) (c : Ctrl) : Boat :=
  Body.applyForce
    (Body.applyForce boat (propellerPosition boat) (mainForce boat c))
    (propellerPosition boat) (correctiveForce boat c)

/-- A fence corner / reported position `{longitude, latitude}`. -/
structure GeoPos where
  longitude : ℝ
  latitude : ℝ

/-- What the interfaces handed to the loop read off the simulation state:
`position.getPosition()/getHeading()`, `map.getFence()`,
`detector.getDetectedWaste()` and `container.getWeight()`. -/
structure SenseData where
  position : GeoPos
  heading : ℝ
  fence : List GeoPos
  detected : List WasteReading
  weight : ℕ

/-- The mutable simulation state the tick handler touches. -/
structure SimFull where
  boat : Boat
  bottles : List Vec
  control : Ctrl
  weight : ℕ

/-- The consumption pass of the tick handler on the full state. -/
noncomputable def consume (collided : Vec → Bool) (s : SimFull) : SimFull :=
  { s with
    bottles := s.bottles.filter fun b => !collided b
    weight := s.weight + s.bottles.countP collided }

/-- The sensed state built from the current simulation state. -/
noncomputable def senseOf (detectorAngle detectorRange width height : ℝ)
    (s : SimFull) : SenseData :=
  { position := ⟨s.boat.position.x, s.boat.position.y⟩
    heading := normalizeAngle s.boat.angle
    fence := [⟨10, 10⟩, ⟨width - 10, height - 10⟩]
    detected := getDetectedWaste s.boat.position s.boat.angle detectorAngle
      detectorRange s.bottles
    weight := s.weight }

/-- The observable actions of one tick, in execution order. -/
inductive TickEvent
  | consumeBottles
  | loopCall
  | applyForces
deriving DecidableEq, BEq

/-- The tick handler `Events.on(runner, 'tick', () => {...})`: the consumption
pass, then — when `loop` is a function — one call of the loop on the sensed
state, then the force application from the currently stored control values;
paired with the list of the actions it performs, in order. -/
noncomputable def tick (loop : Option (SenseData → Ctrl → Ctrl))
    (collided : Vec → Bool) (detectorAngle detectorRange width height : ℝ)
    (s : SimFull) : SimFull × List TickEvent :=
  let s1 := consume collided s
  match loop with
  | some f =>
    let c := f (senseOf detectorAngle detectorRange width height s1) s1.control
    ({ s1 with control := c, boat := applyTickForces s1.boat c },
      [.consumeBottles, .loopCall, .applyForces])
  | none =>
    ({ s1 with boat := applyTickForces s1.boat s1.control },
      [.consumeBottles, .applyForces])

end Solo

/-! ## Two-thruster variant (`src/unnamed/part_000`) -/

namespace Twin

/-- The stored commands: `let velocityLeft = 0; let velocityRight = 0`. -/
structure Ctrl where
  velocityLeft : ℝ
  velocityRight : ℝ

/-- `control.setVelocityLeft(value)`: rejects values outside `[-1, 1]`,
otherwise stores `value * 4`. -/
noncomputable def setVelocityLeft (s : Ctrl) (value : ℝ) : Ctrl × Bool :=
  if value < -1 ∨ value > 1 then (s, true)
  else ({ s with velocityLeft := value * 4 }, false)

/-- `control.setVelocityRight(value)`. -/
noncomputable def setVelocityRight (s : Ctrl) (value : ℝ) : Ctrl × Bool :=
  if value < -1 ∨ value > 1 then (s, true)
  else ({ s with velocityRight := value * 4 }, false)

/-- The force the tick applies at `propellerPositionOne`:
`{ x: Math.cos(boat.angle) * forceLeft, y: Math.sin(boat.angle) * forceLeft }`
with `forceLeft = MAX_FORCE * velocityLeft`. -/
noncomputable def forceLeftVec (boatAngle : ℝ) (c : Ctrl) : Vec :=
  ⟨Real.cos boatAngle * (MAX_FORCE * c.velocityLeft),
    Real.sin boatAngle * (MAX_FORCE * c.velocityLeft)⟩

/-- The force the tick applies at `propellerPositionTwo`. -/
noncomputable def forceRightVec (boatAngle : ℝ) (c : Ctrl) : Vec :=
  ⟨Real.cos boatAngle * (MAX_FORCE * c.velocityRight),
    Real.sin boatAngle * (MAX_FORCE * c.velocityRight)⟩

end Twin

/-! ## Geo-mapped variant (`src/unnamed/part_001`) -/

namespace Geo

/-- A geo point `{longitude, latitude}`. -/
structure GeoPoint where
  longitude : ℝ
  latitude : ℝ

/-- `width = (topLeftGeoPointMap.latitude - bottomRightGeoPointMap.latitude) *
multiplier`, `multiplier = 1000000`. -/
noncomputable def width (topLeft bottomRight : GeoPoint) : ℝ :=
  (topLeft.latitude - bottomRight.latitude) * 1000000

/-- `height = (bottomRightGeoPointMap.longitude - topLeftGeoPointMap.longitude)
* multiplier`. -/
noncomputable def height (topLeft bottomRight : GeoPoint) : ℝ :=
  (bottomRight.longitude - topLeft.longitude) * 1000000

/-- `position.getPosition()` of the geo variant. -/
noncomputable def getPosition (topLeft bottomRight : GeoPoint)
    (boatPosition : Vec) : GeoPoint :=
  ⟨boatPosition.x / 1000000 + topLeft.longitude,
    boatPosition.y / 1000000 + bottomRight.latitude⟩

/-- The stored commands: `let velocityLeft = 0; let velocityRight = 0`. -/
structure Ctrl where
  velocityLeft : ℝ
  velocityRight : ℝ

/-- The geo variant's `control` object literal lists `setPowerLeft` twice;
under JavaScript object-literal semantics the later definition wins, so the
returned object's only method is this one, whose body writes `velocityRight`.
The object has no `setPowerRight` and no reachable operation writes
`velocityLeft`. -/
noncomputable def setPowerLeft (s : Ctrl) (value : ℝ) : Ctrl × Bool :=
  if value < -1 ∨ value > 1 then (s, true)
  else ({ s with velocityRight := value * 4 }, false)

/-- The initial control state. -/
noncomputable def initCtrl : Ctrl := ⟨0, 0⟩

/-- A sequence of calls to the control interface's only setter. -/
noncomputable def applyCalls (values : List ℝ) (s : Ctrl) : Ctrl :=
  values.foldl (fun s v => (setPowerLeft s v).1) s

/-- The force the tick applies at the first propeller position. -/
noncomputable def forceLeftVec (boatAngle : ℝ) (c : Ctrl) : Vec :=
  ⟨Real.cos boatAngle * (MAX_FORCE * c.velocityLeft),
    Real.sin boatAngle * (MAX_FORCE * c.velocityLeft)⟩

end Geo

/-! ## Claims on the tick order, the forces and the setters -/

/-- C4: on every tick the loop callback, when it is a function, is invoked
exactly once, and the tick proceeds in a fixed order: first collided bottles
are consumed and the weight updated, then the loop is called on the sensed
state (control, position, map, detector, container), then the propeller
forces derived from the currently stored control values are applied. -/
theorem tick_calls_loop_once_in_order (f : Solo.SenseData → Solo.Ctrl → Solo.Ctrl)
    (collided : Vec → Bool) (detectorAngle detectorRange width height : ℝ)
    (s : Solo.SimFull) :
    (Solo.tick (some f) collided detectorAngle detectorRange width height s).2.count
        Solo.TickEvent.loopCall = 1 ∧
      (Solo.tick none collided detectorAngle detectorRange width height s).2.count
        Solo.TickEvent.loopCall = 0 ∧
      (Solo.tick (some f) collided detectorAngle detectorRange width height s).2 =
        [Solo.TickEvent.consumeBottles, Solo.TickEvent.loopCall,
          Solo.TickEvent.applyForces] ∧
      (Solo.tick (some f) collided detectorAngle detectorRange width height
            s).1.control =
        f (Solo.senseOf detectorAngle detectorRange width height
            (Solo.consume collided s)) s.control ∧
      (Solo.tick (some f) collided detectorAngle detectorRange width height s).1.boat =
        Solo.applyTickForces (Solo.consume collided s).boat
          ((Solo.tick (some f) collided detectorAngle detectorRange width height
              s).1.control) ∧
      (Solo.tick (some f) collided detectorAngle detectorRange width height
            s).1.weight =
        s.weight + s.bottles.countP collided :=
  ⟨rfl, rfl, rfl, rfl, rfl, rfl⟩

lemma guard_throws_iff {σ : Type} (c : Prop) [Decidable c] (s t : σ) :
    ((if c then (s, true) else (t, false)).2 = true ↔ c) ∧
      ((if c then (s, true) else (t, false)).2 = true →
        (if c then (s, true) else (t, false)).1 = s) := by
  by_cases h : c
  · rw [if_pos h]
    exact ⟨⟨fun _ => h, fun _ => rfl⟩, fun _ => rfl⟩
  · rw [if_neg h]
    exact ⟨⟨fun hb => absurd hb (by simp), fun hc => absurd hc h⟩,
      fun hb => absurd hb (by simp)⟩

lemma setter_boundary {σ : Type} (c : Prop) [Decidable c] (hc : ¬c) (s t : σ) :
    (if c then (s, true) else (t, false)).2 = false := by
  rw [if_neg hc]

/-- C8: every control setter of the three variants throws exactly when its
argument is strictly less than −1.0 or strictly greater than 1.0; the
boundary values −1.0 and 1.0 are accepted; and on a throw the stored command
state is left unchanged. -/
theorem setters_guard (s : Solo.Ctrl) (t : Twin.Ctrl) (g : Geo.Ctrl) (v : ℝ) :
    ((Solo.setVelocity s v).2 = true ↔ (v < -1 ∨ v > 1)) ∧
      ((Solo.setVelocity s v).2 = true → (Solo.setVelocity s v).1 = s) ∧
      (Solo.setVelocity s (-1)).2 = false ∧
      (Solo.setVelocity s 1).2 = false ∧
      ((Solo.setRudder s v).2 = true ↔ (v < -1 ∨ v > 1)) ∧
      ((Solo.setRudder s v).2 = true → (Solo.setRudder s v).1 = s) ∧
      (Solo.setRudder s (-1)).2 = false ∧
      (Solo.setRudder s 1).2 = false ∧
      ((Twin.setVelocityLeft t v).2 = true ↔ (v < -1 ∨ v > 1)) ∧
      ((Twin.setVelocityLeft t v).2 = true → (Twin.setVelocityLeft t v).1 = t) ∧
      (Twin.setVelocityLeft t (-1)).2 = false ∧
      (Twin.setVelocityLeft t 1).2 = false ∧
      ((Twin.setVelocityRight t v).2 = true ↔ (v < -1 ∨ v > 1)) ∧
      ((Twin.setVelocityRight t v).2 = true → (Twin.setVelocityRight t v).1 = t) ∧
      (Twin.setVelocityRight t (-1)).2 = false ∧
      (Twin.setVelocityRight t 1).2 = false ∧
      ((Geo.setPowerLeft g v).2 = true ↔ (v < -1 ∨ v > 1)) ∧
      ((Geo.setPowerLeft g v).2 = true → (Geo.setPowerLeft g v).1 = g) ∧
      (Geo.setPowerLeft g (-1)).2 = false ∧
      (Geo.setPowerLeft g 1).2 = false := by
  have hneg1 : ¬((-1 : ℝ) < -1 ∨ (-1 : ℝ) > 1) := by norm_num
  have hpos1 : ¬((1 : ℝ) < -1 ∨ (1 : ℝ) > 1) := by norm_num
  exact ⟨(guard_throws_iff (v < -1 ∨ v > 1) s { s with velocity := v }).1,
    (guard_throws_iff (v < -1 ∨ v > 1) s { s with velocity := v }).2,
    setter_boundary _ hneg1 s { s with velocity := (-1 : ℝ) },
    setter_boundary _ hpos1 s { s with velocity := (1 : ℝ) },
    (guard_throws_iff (v < -1 ∨ v > 1) s { s with rudder := v }).1,
    (guard_throws_iff (v < -1 ∨ v > 1) s { s with rudder := v }).2,
    setter_boundary _ hneg1 s { s with rudder := (-1 : ℝ) },
    setter_boundary _ hpos1 s { s with rudder := (1 : ℝ) },
    (guard_throws_iff (v < -1 ∨ v > 1) t { t with velocityLeft := v * 4 }).1,
    (guard_throws_iff (v < -1 ∨ v > 1) t { t with velocityLeft := v * 4 }).2,
    setter_boundary _ hneg1 t { t with velocityLeft := (-1 : ℝ) * 4 },
    setter_boundary _ hpos1 t { t with velocityLeft := (1 : ℝ) * 4 },
    (guard_throws_iff (v < -1 ∨ v > 1) t { t with velocityRight := v * 4 }).1,
    (guard_throws_iff (v < -1 ∨ v > 1) t { t with velocityRight := v * 4 }).2,
    setter_boundary _ hneg1 t { t with velocityRight := (-1 : ℝ) * 4 },
    setter_boundary _ hpos1 t { t with velocityRight := (1 : ℝ) * 4 },
    (guard_throws_iff (v < -1 ∨ v > 1) g { g with velocityRight := v * 4 }).1,
    (guard_throws_iff (v < -1 ∨ v > 1) g { g with velocityRight := v * 4 }).2,
    setter_boundary _ hneg1 g { g with velocityRight := (-1 : ℝ) * 4 },
    setter_boundary _ hpos1 g { g with velocityRight := (1 : ℝ) * 4 }⟩

/-- C5: the thrust is linear in the stored command: in the single-thruster
variant the main force has magnitude `MAX_FORCE * velocity` directed along
`boat.angle + (π/2)·rudder` and is applied at the midpoint of the boat's
first and last vertices; in the two-thruster variant each thruster's force is
`MAX_FORCE` times its stored velocity — the setter having stored 4 times the
commanded value — directed along `boat.angle`. -/
theorem propeller_force_formulas (boat : Boat) (c : Solo.Ctrl) (θ : ℝ)
    (sL sR : Twin.Ctrl) (v w : ℝ)
    (hv1 : -1 ≤ v) (hv2 : v ≤ 1) (hw1 : -1 ≤ w) (hw2 : w ≤ 1) :
    Solo.propellerPosition boat =
        ⟨((boat.vertices.getD 0 ⟨0, 0⟩).x +
              (boat.vertices.getD (boat.vertices.length - 1) ⟨0, 0⟩).x) / 2,
          ((boat.vertices.getD 0 ⟨0, 0⟩).y +
              (boat.vertices.getD (boat.vertices.length - 1) ⟨0, 0⟩).y) / 2⟩ ∧
      Solo.mainForce boat c =
        ⟨Real.cos (boat.angle + Real.pi / 2 * c.rudder) * (MAX_FORCE * c.velocity),
          Real.sin (boat.angle + Real.pi / 2 * c.rudder) * (MAX_FORCE * c.velocity)⟩ ∧
      MAX_FORCE = 0.025 ∧
      Twin.forceLeftVec θ (Twin.setVelocityLeft sL v).1 =
        ⟨Real.cos θ * (MAX_FORCE * (4 * v)), Real.sin θ * (MAX_FORCE * (4 * v))⟩ ∧
      Twin.forceRightVec θ (Twin.setVelocityRight sR w).1 =
        ⟨Real.cos θ * (MAX_FORCE * (4 * w)), Real.sin θ * (MAX_FORCE * (4 * w))⟩ := by
  have hvc : ¬(v < -1 ∨ v > 1) := by push_neg; exact ⟨hv1, hv2⟩
  have hwc : ¬(w < -1 ∨ w > 1) := by push_neg; exact ⟨hw1, hw2⟩
  refine ⟨?_, rfl, rfl, ?_, ?_⟩
  · simp only [Solo.propellerPosition, Vec.mk.injEq]
    constructor <;> split <;> ring
  · simp only [Twin.setVelocityLeft]
    rw [if_neg hvc]
    simp only [Twin.forceLeftVec, Vec.mk.injEq]
    constructor <;> ring
  · simp only [Twin.setVelocityRight]
    rw [if_neg hwc]
    simp only [Twin.forceRightVec, Vec.mk.injEq]
    constructor <;> ring

/-- Witness for C5 at a concrete input: a boat with no vertices at the
origin, zero commands, and thruster commands 1/2 and 1. -/
theorem propeller_force_formulas_witness :
    Solo.propellerPosition ⟨⟨0, 0⟩, 0, [], ⟨0, 0⟩, 0⟩ =
        ⟨((([] : List Vec).getD 0 ⟨0, 0⟩).x +
              (([] : List Vec).getD (([] : List Vec).length - 1) ⟨0, 0⟩).x) / 2,
          ((([] : List Vec).getD 0 ⟨0, 0⟩).y +
              (([] : List Vec).getD (([] : List Vec).length - 1) ⟨0, 0⟩).y) / 2⟩ ∧
      Solo.mainForce ⟨⟨0, 0⟩, 0, [], ⟨0, 0⟩, 0⟩ ⟨0, 0⟩ =
        ⟨Real.cos ((0 : ℝ) + Real.pi / 2 * 0) * (MAX_FORCE * 0),
          Real.sin ((0 : ℝ) + Real.pi / 2 * 0) * (MAX_FORCE * 0)⟩ ∧
      MAX_FORCE = 0.025 ∧
      Twin.forceLeftVec 0 (Twin.setVelocityLeft ⟨0, 0⟩ (1 / 2)).1 =
        ⟨Real.cos 0 * (MAX_FORCE * (4 * (1 / 2))),
          Real.sin 0 * (MAX_FORCE * (4 * (1 / 2)))⟩ ∧
      Twin.forceRightVec 0 (Twin.setVelocityRight ⟨0, 0⟩ 1).1 =
        ⟨Real.cos 0 * (MAX_FORCE * (4 * 1)), Real.sin 0 * (MAX_FORCE * (4 * 1))⟩ :=
  propeller_force_formulas ⟨⟨0, 0⟩, 0, [], ⟨0, 0⟩, 0⟩ ⟨0, 0⟩ 0 ⟨0, 0⟩ ⟨0, 0⟩
    (1 / 2) 1 (by norm_num) (by norm_num) (by norm_num) (by norm_num)

/-- C7: in the geo-mapped variant `position.getPosition()` returns
`longitude = x/1000000 + topLeft.longitude` and
`latitude = y/1000000 + bottomRight.latitude`; the world is sized
`width = (topLeft.latitude − bottomRight.latitude)·1000000` and
`height = (bottomRight.longitude − topLeft.longitude)·1000000`; a boat at
world position `(0, 0)` reports exactly
`(topLeft.longitude, bottomRight.latitude)`. -/
theorem geo_position_inverts_map (topLeft bottomRight : Geo.GeoPoint) (p : Vec) :
    Geo.getPosition topLeft bottomRight p =
        ⟨p.x / 1000000 + topLeft.longitude, p.y / 1000000 + bottomRight.latitude⟩ ∧
      Geo.width topLeft bottomRight =
        (topLeft.latitude - bottomRight.latitude) * 1000000 ∧
      Geo.height topLeft bottomRight =
        (bottomRight.longitude - topLeft.longitude) * 1000000 ∧
      Geo.getPosition topLeft bottomRight ⟨0, 0⟩ =
        ⟨topLeft.longitude, bottomRight.latitude⟩ := by
  refine ⟨rfl, rfl, rfl, ?_⟩
  simp only [Geo.getPosition, Geo.GeoPoint.mk.injEq]
  norm_num

lemma setPowerLeft_preserves_velocityLeft (s : Geo.Ctrl) (v : ℝ) :
    ((Geo.setPowerLeft s v).1).velocityLeft = s.velocityLeft := by
  unfold Geo.setPowerLeft
  split <;> rfl

lemma applyCalls_velocityLeft (values : List ℝ) (s : Geo.Ctrl) :
    (Geo.applyCalls values s).velocityLeft = s.velocityLeft := by
  induction values generalizing s with
  | nil => rfl
  | cons a t ih =>
    show (Geo.applyCalls t (Geo.setPowerLeft s a).1).velocityLeft = _
    rw [ih, setPowerLeft_preserves_velocityLeft]

/-- C10: in the geo variant the second `setPowerLeft` definition shadows the
first, so no reachable operation changes `velocityLeft`: after any sequence
of setter calls `velocityLeft` is still 0, and the force applied at the first
propeller position is the zero vector on every tick. -/
theorem geo_left_thruster_dead (values : List ℝ) (boatAngle : ℝ) :
    (Geo.applyCalls values Geo.initCtrl).velocityLeft = 0 ∧
      Geo.forceLeftVec boatAngle (Geo.applyCalls values Geo.initCtrl) = ⟨0, 0⟩ := by
  have h : (Geo.applyCalls values Geo.initCtrl).velocityLeft = 0 := by
    rw [applyCalls_velocityLeft]
    rfl
  refine ⟨h, ?_⟩
  simp only [Geo.forceLeftVec, h, Vec.mk.injEq, mul_zero]

end SeaDrone
